import Mathlib

/-!
Verification development for the CS2 demo-statistics pipeline
(`src/processing/parse_demo.py` and the upload endpoint of
`src/backend/api_server.py`).

The event tables produced by the demo parser are embedded as lists of
typed rows; a table whose retrieval may throw (`try`/`except` in the
source) is embedded as an `Option` of the list, `none` standing for the
exception path.  Pure Python functions become Lean functions; the
SQLite sink becomes an explicit `DB` value threaded through the upload
operation.
-/

namespace PuncentralStats

/-- One row of the `player_death` event table: attacker, victim,
headshot flag and tick (timestamp). -/
structure KillRow where
  attacker_name : String
  user_name : String
  headshot : Bool
  tick : Int
deriving DecidableEq, Repr

/-- One row of the `player_hurt` event table: attacker, weapon and
health damage amount. -/
structure DamageRow where
  attacker_name : String
  weapon : String
  dmg_health : Int
deriving DecidableEq, Repr

/-- One row of the `round_end` event table: round number, end tick and
winning side (`"CT"` or `"T"`). -/
structure RoundEndRow where
  round : Int
  tick : Int
  winner : String
deriving DecidableEq, Repr

/-- One row of the per-tick player table returned by
`parse_ticks(['name', 'team_name'])`. -/
structure TickRow where
  tick : Int
  name : String
  team_name : String
deriving DecidableEq, Repr

/-- The per-player statistics record assembled by
`DemoStatsParser.parse_player_stats` for one player. -/
structure PlayerStats where
  kills_total : Nat
  deaths_total : Nat
  dmg : Int
  utility_dmg : Int
  headshot_kills_total : Nat
  ace_rounds_total : Nat
  quad_rounds_total : Nat
  triple_rounds_total : Nat
  mvps : Nat
deriving DecidableEq, Repr

/-- The map-level record produced by `parse_map_stats`. -/
structure MapStatsIn where
  map_name : String
  date_time : String
  won : Int
deriving DecidableEq, Repr

/-- The required players constant `REQUIRED_PLAYERS` of
`parse_demo.py`. -/
def REQUIRED_PLAYERS : List String :=
  ["nifty", "Dybbis", "Togmannen", "Stutmunn", "martinsen"]

/-- Order-preserving removal of duplicates, keeping the first
occurrence of each element: the behaviour of pandas `unique()` used by
`get_player_names` and by the tick scan in `parse_map_stats`. -/
def uniqueFirst {α : Type} [DecidableEq α] : List α → List α
  | [] => []
  | x :: xs => x :: (uniqueFirst xs).filter (fun y => y != x)

/-- Embeds `DemoStatsParser.get_player_names`: the attacker and victim names
of the `player_death` table, with null-ish values removed. -/
def get_player_names (kills_df : List KillRow) : List String :=
  (uniqueFirst
    (kills_df.map (fun r => r.attacker_name) ++ kills_df.map (fun r => r.user_name))).filter
    (fun n => n != "" && n != "None")

/-- Python `str.lower()`, embedded character-wise (ASCII case folding,
which covers the roster names) so that it evaluates by kernel
reduction. -/
def strLower (s : String) : String := String.mk (s.toList.map Char.toLower)

/-- Lower-cased deduplicated view of a name list: the `players_lower`
and `required_lower` sets of `check_required_players`. -/
def lowerSet (xs : List String) : List String :=
  uniqueFirst (xs.map (fun s => strLower s))

/-- The `missing` set of `check_required_players`:
`required_lower - players_lower`. -/
def missing_required (players required : List String) : List String :=
  (lowerSet required).filter (fun r => !((lowerSet players).contains r))

/-- Embeds `DemoStatsParser.check_required_players`: true when no required
player is missing (case-insensitive). -/
def check_required_players (players required : List String) : Bool :=
  (missing_required players required).isEmpty

/-- Embeds `DemoStatsParser.get_match_id`: the demo filename stem with
underscores removed. -/
def get_match_id (filename_stem : String) : String :=
  String.mk (filename_stem.toList.filter (fun c => c != '_'))

/-- The inner helper `get_round_for_tick` of `parse_player_stats`:
a linear scan returning the round of the first `round_end` row with
`tick <= row['tick']`, and the last row's round when no row qualifies.
`none` only when the table is empty. -/
def get_round_for_tick (round_end_df : List RoundEndRow) (tick : Int) : Option Int :=
  match round_end_df.find? (fun row => decide (tick ≤ row.tick)) with
  | some row => some row.round
  | none => (round_end_df.getLast?).map (fun row => row.round)

/-- The kill rows of one attacker: `kills_df[kills_df['attacker_name'] == player]`
(exact string comparison, as in the source). -/
def playerKills (kills_df : List KillRow) (player : String) : List KillRow :=
  kills_df.filter (fun r => r.attacker_name == player)

/-- The per-round kill groups of `parse_player_stats`
(`player_kills.groupby('round').size()`): each round value reached by
one of the player's kills via `get_round_for_tick`, paired with the
number of that player's kills landing in it. -/
def kills_per_round (round_end_df : List RoundEndRow) (kills_df : List KillRow)
    (player : String) : List (Option Int × Nat) :=
  let rs := (playerKills kills_df player).map (fun k => get_round_for_tick round_end_df k.tick)
  (uniqueFirst rs).map (fun r => (r, (rs.filter (fun x => x == r)).length))

/-- The multi-kill counting of `parse_player_stats`: the number of
per-round groups with kill count `>= 5`, `== 4` and `== 3`.  The
`round_end` table is `none` when retrieving it threw (the local
`except` sets all three counters to zero), and an empty table is also
skipped by the guard in the source. -/
def multiKillCounts (round_end : Option (List RoundEndRow)) (kills_df : List KillRow)
    (player : String) : Nat × Nat × Nat :=
  match round_end with
  | none => (0, 0, 0)
  | some rdf =>
    if rdf.isEmpty then (0, 0, 0)
    else
      let groups := kills_per_round rdf kills_df player
      ((groups.filter (fun g => decide (5 ≤ g.2))).length,
       (groups.filter (fun g => g.2 == 4)).length,
       (groups.filter (fun g => g.2 == 3)).length)

/-- The `utility_weapons` list of `parse_player_stats`. -/
def utility_weapons : List String := ["hegrenade", "molotov", "incgrenade", "inferno"]

/-- The body of the per-player loop of `parse_player_stats`: the
statistics record produced for one player.  `damage_df = none` embeds
the `player_hurt` table being absent or malformed (the source then
leaves `total_dmg` and `utility_dmg` at zero); `round_end = none`
embeds the `round_end` retrieval throwing inside the multi-kill block.
MVPs are hard-coded to zero in the source. -/
def playerStatsFor (kills_df : List KillRow) (damage_df : Option (List DamageRow))
    (round_end : Option (List RoundEndRow)) (player : String) : PlayerStats :=
  let kills := (kills_df.filter (fun r => r.attacker_name == player)).length
  let deaths := (kills_df.filter (fun r => r.user_name == player)).length
  let headshot_kills :=
    (kills_df.filter (fun r => r.attacker_name == player && r.headshot)).length
  let total_dmg :=
    match damage_df with
    | none => 0
    | some ddf =>
      ((ddf.filter (fun r => r.attacker_name == player)).map (fun r => r.dmg_health)).sum
  let utility_dmg :=
    match damage_df with
    | none => 0
    | some ddf =>
      (((ddf.filter (fun r => r.attacker_name == player)).filter
          (fun r => utility_weapons.contains r.weapon)).map (fun r => r.dmg_health)).sum
  let mk := multiKillCounts round_end kills_df player
  { kills_total := kills, deaths_total := deaths, dmg := total_dmg,
    utility_dmg := utility_dmg, headshot_kills_total := headshot_kills,
    ace_rounds_total := mk.1, quad_rounds_total := mk.2.1,
    triple_rounds_total := mk.2.2, mvps := 0 }

/-- Embeds `DemoStatsParser.parse_player_stats`: one statistics record per
observed player name whose lower-cased form is a required player. -/
def parse_player_stats (required : List String) (kills_df : List KillRow)
    (damage_df : Option (List DamageRow)) (round_end : Option (List RoundEndRow)) :
    List (String × PlayerStats) :=
  ((get_player_names kills_df).filter
      (fun p => (required.map (fun s => strLower s)).contains (strLower p))).map
    (fun p => (p, playerStatsFor kills_df damage_df round_end p))

/-- Number of occurrences of a value in a list. -/
def countOccur (xs : List String) (v : String) : Nat :=
  (xs.filter (fun y => y == v)).length

/-- Pandas `Series.mode()[0]`: a most-frequent value, ties broken
towards the lexicographically smallest (pandas sorts the modes).
Returns `""` on an empty list (the source never reaches that case). -/
def pandasMode (xs : List String) : String :=
  match uniqueFirst xs with
  | [] => ""
  | c :: cs =>
    List.foldl
      (fun best v =>
        if countOccur xs best < countOccur xs v ∨
            (countOccur xs v = countOccur xs best ∧ v < best) then v else best)
      c cs

/-- The team-name mapping of `parse_map_stats`:
`'CT' if team == 'CT' else 'T'`. -/
def sideOfTeam (team : String) : String :=
  if team == "CT" then "CT" else "T"

/-- The membership test of the tick scan in `parse_map_stats`:
`player_name and player_name.lower() in our_players_lower`. -/
def tracked_name (required : List String) (n : String) : Bool :=
  n != "" && (required.map (fun s => strLower s)).contains (strLower n)

/-- The window filter of `parse_map_stats`: ticks with
`last_round_tick - 1000 <= tick <= last_round_tick`. -/
def relevantTicks (ticks_df : List TickRow) (last_round_tick : Int) : List TickRow :=
  ticks_df.filter (fun r =>
    decide (last_round_tick - 1000 ≤ r.tick) && decide (r.tick ≤ last_round_tick))

/-- The side-resolution loop of `parse_map_stats`: scan the distinct
names of the window ticks in order, take the first required player, and
map the mode of that player's `team_name` samples through `sideOfTeam`. -/
def findOurTeam (relevant : List TickRow) (required : List String) : Option String :=
  (uniqueFirst (relevant.map (fun r => r.name))).findSome? (fun n =>
    if tracked_name required n then
      let pticks := relevant.filter (fun r => r.name == n)
      if pticks.isEmpty then none
      else some (sideOfTeam (pandasMode (pticks.map (fun r => r.team_name))))
    else none)

/-- The `except` fallback of the side resolution in `parse_map_stats`:
compare total CT round wins with total T round wins over the whole
match. -/
def roundCountFallback (round_end_df : List RoundEndRow) : Int :=
  let ct_wins := (round_end_df.filter (fun r => r.winner == "CT")).length
  let t_wins := (round_end_df.filter (fun r => r.winner == "T")).length
  if t_wins < ct_wins then 1 else 0

/-- The `won` computation of `parse_map_stats`.  `ticks_df = none`
embeds `parse_ticks` throwing (the `except` branch runs the
round-count fallback); with ticks available, `won` is 1 exactly when
the resolved team equals the last round's winner, and defaults to 0
when no required player resolves. -/
def compute_won (round_end_df : List RoundEndRow) (ticks_df : Option (List TickRow))
    (required : List String) : Int :=
  match round_end_df.getLast? with
  | none => 0
  | some last =>
    match ticks_df with
    | none => roundCountFallback round_end_df
    | some tdf =>
      match findOurTeam (relevantTicks tdf last.tick) required with
      | some team => if last.winner == team then 1 else 0
      | none => 0

/-- One demo snapshot as seen by `DemoStatsParser`: the filename stem,
header map name, the resolved date-time string (filename pattern or
file modification time, both external inputs here) and the four event
tables, fallible ones wrapped in `Option`. -/
structure Demo where
  filename_stem : String
  map_name : String
  date_time : String
  kills_df : List KillRow
  damage_df : Option (List DamageRow)
  round_end_df : Option (List RoundEndRow)
  ticks_df : Option (List TickRow)
deriving DecidableEq, Repr

/-- Embeds `DemoStatsParser.parse_map_stats`: `none` when the `round_end`
retrieval throws (the outer `except` returns `None`), otherwise the
map name, date-time and the `won` flag. -/
def parse_map_stats (demo : Demo) (required : List String) : Option MapStatsIn :=
  match demo.round_end_df with
  | none => none
  | some rdf => some ⟨demo.map_name, demo.date_time, compute_won rdf demo.ticks_df required⟩

/-- One stored `map_stats` row of the sink. -/
structure MapRow where
  match_id : String
  map_name : String
  date_time : String
  won : Int
deriving DecidableEq, Repr

/-- One stored `player_stats` row of the sink. -/
structure PlayerRow where
  match_id : String
  name : String
  stats : PlayerStats
deriving DecidableEq, Repr

/-- The sink state: the two tables written by the upload endpoint. -/
structure DB where
  map_stats : List MapRow
  player_stats : List PlayerRow
deriving DecidableEq, Repr

/-- The `MatchUpload` request body of `api_server.py`. -/
structure MatchUpload where
  match_id : String
  player_stats : List (String × PlayerStats)
  map_stats : MapStatsIn
deriving DecidableEq, Repr

/-- Embeds `SELECT COUNT(*) FROM map_stats WHERE match_id = ?`. -/
def map_row_count (db : DB) (mid : String) : Nat :=
  (db.map_stats.filter (fun r => r.match_id == mid)).length

/-- Number of stored `player_stats` rows for one match id. -/
def player_row_count (db : DB) (mid : String) : Nat :=
  (db.player_stats.filter (fun r => r.match_id == mid)).length

/-- The `/api/upload` endpoint `upload_match_data` of `api_server.py`:
when a `map_stats` row with the match id already exists, answer HTTP
409 and leave the database untouched; otherwise insert the map row and
every player row and answer HTTP 200. -/
def upload_match_data (db : DB) (payload : MatchUpload) : DB × Nat :=
  if 0 < map_row_count db payload.match_id then (db, 409)
  else
    ({ map_stats := db.map_stats ++
        [⟨payload.match_id, payload.map_stats.map_name,
          payload.map_stats.date_time, payload.map_stats.won⟩],
       player_stats := db.player_stats ++
        payload.player_stats.map (fun p => ⟨payload.match_id, p.1, p.2⟩) }, 200)

/-- Outcome of the HTTP POST in `upload_to_api`: a status code, or a
transport-level exception. -/
inductive ApiOutcome
  | response (status : Nat)
  | requestError
deriving DecidableEq, Repr

/-- The return value of `upload_to_api` in `parse_demo.py`: `True` on
status 200, `False` on status 409, any other status, or an
exception. -/
def upload_to_api_result (r : ApiOutcome) : Bool :=
  match r with
  | .response 200 => true
  | .response _ => false
  | .requestError => false

/-- Result of `parse_demo_file` on one demo. -/
inductive DemoResult
  | skippedMissingPlayers (missing : List String)
  | skippedNoStats
  | skippedNoMapStats
  | uploadOutcome (status : Nat)
deriving DecidableEq, Repr

/-- Embeds `parse_demo_file` in API mode: the roster gate, then stats and map
parsing, then the upload against the sink.  Returns the outcome and
the resulting sink state. -/
def parse_demo_file (demo : Demo) (required : List String) (db : DB) : DemoResult × DB :=
  let players := get_player_names demo.kills_df
  if check_required_players players required then
    let pstats := parse_player_stats required demo.kills_df demo.damage_df demo.round_end_df
    if pstats.isEmpty then (.skippedNoStats, db)
    else
      match parse_map_stats demo required with
      | none => (.skippedNoMapStats, db)
      | some ms =>
        let r := upload_match_data db ⟨get_match_id demo.filename_stem, pstats, ms⟩
        (.uploadOutcome r.2, r.1)
  else (.skippedMissingPlayers (missing_required players required), db)

/-- Multi-kill tier of a per-round kill count, as the specification
classifies it: at least 5 is an ace, exactly 4 a quad, exactly 3 a
triple, at most 2 no tier. -/
inductive KillTier
  | ace
  | quad
  | triple
  | noTier
deriving DecidableEq, Repr

/-- Spec-side classification of a per-round kill count, following the
priority order of the specification (count >= 5, == 4, == 3, <= 2). -/
def classifyTier (count : Nat) : KillTier :=
  if 5 ≤ count then .ace
  else if count = 4 then .quad
  else if count = 3 then .triple
  else .noTier

/-! ## Theorems -/

/-- Membership is preserved by `uniqueFirst`. -/
lemma mem_uniqueFirst {α : Type} [DecidableEq α] (a : α) :
    ∀ l : List α, a ∈ uniqueFirst l ↔ a ∈ l := by
  intro l
  induction l with
  | nil => simp [uniqueFirst]
  | cons x xs ih =>
    simp only [uniqueFirst, List.mem_cons, List.mem_filter]
    constructor
    · rintro (rfl | ⟨h1, _⟩)
      · exact Or.inl rfl
      · exact Or.inr (ih.mp h1)
    · rintro (rfl | h)
      · exact Or.inl rfl
      · by_cases hax : a = x
        · exact Or.inl hax
        · exact Or.inr ⟨ih.mpr h, by simp [hax]⟩

/-- A non-empty list is not `isEmpty`. -/
lemma isEmpty_false_of_ne_nil {α : Type} {l : List α} (h : l ≠ []) : l.isEmpty = false := by
  cases l with
  | nil => exact absurd rfl h
  | cons x xs => rfl

/-- Fact that `List.find?` returns the element at the first index whose
predecessors all fail the predicate. -/
lemma find?_first {α : Type} (p : α → Bool) :
    ∀ (l : List α) (i : Nat) (a : α), l[i]? = some a → p a = true →
      (∀ (j : Nat) (b : α), j < i → l[j]? = some b → p b = false) →
      l.find? p = some a := by
  intro l
  induction l with
  | nil => intro i a ha _ _; simp at ha
  | cons x xs ih =>
    intro i a ha hpa hprev
    cases i with
    | zero =>
      simp only [List.getElem?_cons_zero, Option.some.injEq] at ha
      subst ha
      simp [List.find?_cons, hpa]
    | succ k =>
      have hx : p x = false := hprev 0 x (Nat.zero_lt_succ k) (by simp)
      rw [List.find?_cons, hx]
      refine ih k a ?_ hpa ?_
      · simpa using ha
      · intro j b hj hb
        exact hprev (j + 1) b (Nat.succ_lt_succ hj) (by simpa using hb)

/-- Fact that `List.findSome?` returns the value of the element at the first
index whose predecessors all map to `none`. -/
lemma findSome?_first {α β : Type} (f : α → Option β) :
    ∀ (l : List α) (i : Nat) (a : α) (b : β), l[i]? = some a → f a = some b →
      (∀ (j : Nat) (c : α), j < i → l[j]? = some c → f c = none) →
      l.findSome? f = some b := by
  intro l
  induction l with
  | nil => intro i a b ha _ _; simp at ha
  | cons x xs ih =>
    intro i a b ha hfa hprev
    cases i with
    | zero =>
      simp only [List.getElem?_cons_zero, Option.some.injEq] at ha
      subst ha
      simp [List.findSome?_cons, hfa]
    | succ k =>
      have hx : f x = none := hprev 0 x (Nat.zero_lt_succ k) (by simp)
      rw [List.findSome?_cons, hx]
      refine ih k a b ?_ hfa ?_
      · simpa using ha
      · intro j c hj hc
        exact hprev (j + 1) c (Nat.succ_lt_succ hj) (by simpa using hc)

/-- C2: for a non-empty, tick-ordered round table, `get_round_for_tick`
returns the round number of the first boundary whose end tick is at
least the event tick, and the last boundary's round number when the
tick exceeds every boundary. -/
theorem get_round_for_tick_spec (rdf : List RoundEndRow) (t : Int) (hne : rdf ≠ [])
    (hord : rdf.Pairwise (fun a b => a.tick ≤ b.tick)) :
    (∀ (i : Nat) (row : RoundEndRow), rdf[i]? = some row → t ≤ row.tick →
        (∀ (j : Nat) (rowj : RoundEndRow), j < i → rdf[j]? = some rowj → ¬ t ≤ rowj.tick) →
        get_round_for_tick rdf t = some row.round) ∧
    ((∀ row ∈ rdf, ¬ t ≤ row.tick) →
        get_round_for_tick rdf t = some (rdf.getLast hne).round) := by
  constructor
  · intro i row hrow ht hprev
    unfold get_round_for_tick
    rw [find?_first (fun r => decide (t ≤ r.tick)) rdf i row hrow (by simpa using ht)
      (fun j b hj hb => by simpa using hprev j b hj hb)]
  · intro hall
    unfold get_round_for_tick
    rw [List.find?_eq_none.mpr (fun x hx => by simpa using hall x hx),
      List.getLast?_eq_getLast_of_ne_nil hne]
    rfl

/-- Round table used by the C2 witness. -/
def c2_rounds : List RoundEndRow := [⟨1, 100, "CT"⟩, ⟨2, 200, "T"⟩]

/-- Witness for C2: a tick inside the second round window resolves to
round 2, and a tick past every boundary resolves to the last round. -/
theorem get_round_for_tick_spec_witness :
    get_round_for_tick c2_rounds 150 = some 2 ∧
    get_round_for_tick c2_rounds 300 = some 2 := by
  constructor
  · refine (get_round_for_tick_spec c2_rounds 150 (by decide) (by decide)).1 1
      ⟨2, 200, "T"⟩ rfl (by decide) ?_
    intro j b hj hb
    interval_cases j
    simp only [c2_rounds, List.getElem?_cons_zero, Option.some.injEq] at hb
    subst hb
    decide
  · refine (get_round_for_tick_spec c2_rounds 300 (by decide) (by decide)).2 ?_
    intro row hrow
    rcases List.mem_cons.mp hrow with rfl | h2
    · decide
    · rcases List.mem_cons.mp h2 with rfl | h3
      · decide
      · exact absurd h3 (List.not_mem_nil row)

/-- Inserting the map row of a payload makes its match id present. -/
lemma map_row_count_after_insert (db : DB) (p : MatchUpload)
    (h : ¬ 0 < map_row_count db p.match_id) :
    0 < map_row_count (upload_match_data db p).1 p.match_id := by
  simp only [upload_match_data, if_neg h]
  simp [map_row_count, List.filter_append]

/-- C1: a payload whose match id already has a stored `map_stats` row
is answered with HTTP 409 and no insert is performed; consequently,
after a successful delivery, re-submitting the identical payload
answers 409 and leaves the stored map and player row counts for that
match id unchanged. -/
theorem upload_conflict_idempotent (db : DB) (p : MatchUpload) :
    (0 < map_row_count db p.match_id → upload_match_data db p = (db, 409)) ∧
    (map_row_count db p.match_id = 0 →
      (upload_match_data db p).2 = 200 ∧
      upload_match_data (upload_match_data db p).1 p = ((upload_match_data db p).1, 409) ∧
      map_row_count (upload_match_data (upload_match_data db p).1 p).1 p.match_id =
        map_row_count (upload_match_data db p).1 p.match_id ∧
      player_row_count (upload_match_data (upload_match_data db p).1 p).1 p.match_id =
        player_row_count (upload_match_data db p).1 p.match_id) := by
  have hconflict : ∀ d : DB, 0 < map_row_count d p.match_id →
      upload_match_data d p = (d, 409) := by
    intro d hd
    simp only [upload_match_data, if_pos hd]
  refine ⟨hconflict db, ?_⟩
  intro h0
  have hnot : ¬ 0 < map_row_count db p.match_id := by omega
  have hins := map_row_count_after_insert db p hnot
  have hsecond := hconflict (upload_match_data db p).1 hins
  refine ⟨?_, hsecond, ?_, ?_⟩
  · simp only [upload_match_data, if_neg hnot]
  · rw [hsecond]
  · rw [hsecond]

/-- Witness for C1 at a concrete empty sink and payload, exercising
both the fresh-delivery branch and the conflict branch. -/
theorem upload_conflict_idempotent_witness :
    (upload_match_data ⟨[], []⟩
        ⟨"m1", [("nifty", ⟨1, 0, 0, 0, 0, 0, 0, 0, 0⟩)], ⟨"de_dust2", "2024", 1⟩⟩).2 = 200 ∧
    upload_match_data
        (upload_match_data ⟨[], []⟩
          ⟨"m1", [("nifty", ⟨1, 0, 0, 0, 0, 0, 0, 0, 0⟩)], ⟨"de_dust2", "2024", 1⟩⟩).1
        ⟨"m1", [("nifty", ⟨1, 0, 0, 0, 0, 0, 0, 0, 0⟩)], ⟨"de_dust2", "2024", 1⟩⟩ =
      ((upload_match_data ⟨[], []⟩
          ⟨"m1", [("nifty", ⟨1, 0, 0, 0, 0, 0, 0, 0, 0⟩)], ⟨"de_dust2", "2024", 1⟩⟩).1, 409) :=
  by
    have h := (upload_conflict_idempotent ⟨[], []⟩
      ⟨"m1", [("nifty", ⟨1, 0, 0, 0, 0, 0, 0, 0, 0⟩)], ⟨"de_dust2", "2024", 1⟩⟩).2 (by decide)
    exact ⟨h.1, h.2.1⟩

/-- C9 counterexample: the value `upload_to_api` returns to its caller
for a 409 (duplicate) response is the same `false` it returns for a
500 (failure) response, so the caller cannot distinguish the two. -/
theorem upload_result_conflates_conflict_and_failure :
    upload_to_api_result (.response 409) = upload_to_api_result (.response 500) ∧
    upload_to_api_result (.response 409) = false := ⟨rfl, rfl⟩

/-- C9 amended: `upload_to_api` reports a plain boolean — `true`
exactly on HTTP 200, `false` on every other status and on transport
errors; the duplicate (409) and failure outcomes are distinguished only
at the HTTP layer, not in the returned value. -/
theorem upload_result_boolean :
    (∀ c : Nat, upload_to_api_result (.response c) = decide (c = 200)) ∧
    upload_to_api_result .requestError = false := by
  refine ⟨?_, rfl⟩
  intro c
  by_cases h : c = 200
  · subst h; rfl
  · by_cases h409 : c = 409
    · subst h409; rfl
    · simp [upload_to_api_result, h, h409]

/-- Round table used by the C5 counterexample: CT wins two of the
three rounds, the final round is won by T. -/
def c5_rounds : List RoundEndRow :=
  [⟨1, 1000, "CT"⟩, ⟨2, 2000, "CT"⟩, ⟨3, 3000, "T"⟩]

/-- C5 counterexample: with a tick table that is retrievable but holds
no sample for any tracked player, the code outputs `won = 0`, while
the aggregate round-count heuristic would output 1 — so the fallback
heuristic is not what runs when no sample yields a side. -/
theorem no_samples_does_not_run_fallback :
    compute_won c5_rounds (some []) REQUIRED_PLAYERS = 0 ∧
    roundCountFallback c5_rounds = 1 := ⟨rfl, rfl⟩

/-- C5 amended: the round-count fallback runs exactly when retrieving
the tick table throws; when the tick table is available but no tracked
player yields a side in the lookback window, `won` defaults to 0. -/
theorem compute_won_fallback_amended :
    (∀ (rdf : List RoundEndRow) (required : List String), rdf ≠ [] →
        compute_won rdf none required = roundCountFallback rdf) ∧
    (∀ (rdf : List RoundEndRow) (hne : rdf ≠ []) (tdf : List TickRow)
        (required : List String),
        findOurTeam (relevantTicks tdf (rdf.getLast hne).tick) required = none →
        compute_won rdf (some tdf) required = 0) := by
  constructor
  · intro rdf required hne
    unfold compute_won
    rw [List.getLast?_eq_getLast_of_ne_nil hne]
  · intro rdf hne tdf required hfind
    unfold compute_won
    rw [List.getLast?_eq_getLast_of_ne_nil hne]
    simp only [hfind]

/-- Witness for C5's amended theorem at concrete inputs: a thrown tick
retrieval runs the round-count fallback, and an empty tick table with
no tracked sample yields 0. -/
theorem compute_won_fallback_amended_witness :
    compute_won c5_rounds none REQUIRED_PLAYERS = roundCountFallback c5_rounds ∧
    compute_won c5_rounds (some []) REQUIRED_PLAYERS = 0 :=
  ⟨compute_won_fallback_amended.1 c5_rounds REQUIRED_PLAYERS (by decide),
   compute_won_fallback_amended.2 c5_rounds (by decide) [] REQUIRED_PLAYERS rfl⟩

/-- Kill table used by the C6 counterexample: the same tracked player
appears as attacker under two capitalisations. -/
def c6_kills : List KillRow :=
  [⟨"Nifty", "x", false, 0⟩, ⟨"nifty", "y", false, 0⟩]

/-- C6 counterexample: the stats record computed for the observed name
`"Nifty"` counts 1 kill, whereas a case-insensitive count of kill
events whose attacker matches `"Nifty"` is 2 — kill counting uses
exact string equality, not case-insensitive matching. -/
theorem kills_not_case_insensitive :
    ("Nifty", playerStatsFor c6_kills none none "Nifty") ∈
      parse_player_stats REQUIRED_PLAYERS c6_kills none none ∧
    (playerStatsFor c6_kills none none "Nifty").kills_total = 1 ∧
    (c6_kills.filter (fun r => strLower r.attacker_name == strLower "Nifty")).length = 2 := by
  refine ⟨?_, by decide, by decide⟩
  decide

/-- C6 amended: for every entry of the computed per-player stats,
kills, deaths, headshot kills and total damage count or sum exactly
the events whose attacker (resp. victim) name equals the entry's
observed player name with exact, case-sensitive string equality (the
roster filter alone is case-insensitive). -/
theorem player_stats_exact_match_counts (required : List String) (kills_df : List KillRow)
    (damage_df : List DamageRow) (round_end : Option (List RoundEndRow))
    (p : String) (s : PlayerStats)
    (hmem : (p, s) ∈ parse_player_stats required kills_df (some damage_df) round_end) :
    s.kills_total = (kills_df.filter (fun r => r.attacker_name == p)).length ∧
    s.deaths_total = (kills_df.filter (fun r => r.user_name == p)).length ∧
    s.headshot_kills_total =
      (kills_df.filter (fun r => r.attacker_name == p && r.headshot)).length ∧
    s.dmg = ((damage_df.filter (fun r => r.attacker_name == p)).map
      (fun r => r.dmg_health)).sum := by
  obtain ⟨q, hq, heq⟩ := List.mem_map.mp hmem
  rw [Prod.mk.injEq] at heq
  obtain ⟨h1, h2⟩ := heq
  subst h1
  subst h2
  exact ⟨rfl, rfl, rfl, rfl⟩

/-- Damage table used by the C6 witness. -/
def c6_damage : List DamageRow := [⟨"Nifty", "ak47", 30⟩]

/-- Witness for C6's amended theorem at a concrete demo. -/
theorem player_stats_exact_match_counts_witness :
    (playerStatsFor c6_kills (some c6_damage) none "Nifty").kills_total =
      (c6_kills.filter (fun r => r.attacker_name == "Nifty")).length ∧
    (playerStatsFor c6_kills (some c6_damage) none "Nifty").deaths_total =
      (c6_kills.filter (fun r => r.user_name == "Nifty")).length ∧
    (playerStatsFor c6_kills (some c6_damage) none "Nifty").headshot_kills_total =
      (c6_kills.filter (fun r => r.attacker_name == "Nifty" && r.headshot)).length ∧
    (playerStatsFor c6_kills (some c6_damage) none "Nifty").dmg =
      ((c6_damage.filter (fun r => r.attacker_name == "Nifty")).map
        (fun r => r.dmg_health)).sum :=
  player_stats_exact_match_counts REQUIRED_PLAYERS c6_kills c6_damage none "Nifty"
    (playerStatsFor c6_kills (some c6_damage) none "Nifty") (by decide)

/-- Kill table used by the C7 witness. -/
def c7_kills : List KillRow := [⟨"Dybbis", "nifty", true, 10⟩]

/-- C7: when the damage event table is absent, every computed stats
entry has `dmg = 0` and `utility_dmg = 0`, while kills, deaths and
headshot kills are still the counts over the kill table; stats parsing
still produces a record. -/
theorem missing_damage_table_degrades (required : List String) (kills_df : List KillRow)
    (round_end : Option (List RoundEndRow)) (p : String) (s : PlayerStats)
    (hmem : (p, s) ∈ parse_player_stats required kills_df none round_end) :
    s.dmg = 0 ∧ s.utility_dmg = 0 ∧
    s.kills_total = (kills_df.filter (fun r => r.attacker_name == p)).length ∧
    s.deaths_total = (kills_df.filter (fun r => r.user_name == p)).length ∧
    s.headshot_kills_total =
      (kills_df.filter (fun r => r.attacker_name == p && r.headshot)).length := by
  obtain ⟨q, hq, heq⟩ := List.mem_map.mp hmem
  rw [Prod.mk.injEq] at heq
  obtain ⟨h1, h2⟩ := heq
  subst h1
  subst h2
  exact ⟨rfl, rfl, rfl, rfl, rfl⟩

/-- Witness for C7 at a concrete demo lacking the damage table. -/
theorem missing_damage_table_degrades_witness :
    (playerStatsFor c7_kills none none "Dybbis").dmg = 0 ∧
    (playerStatsFor c7_kills none none "Dybbis").utility_dmg = 0 ∧
    (playerStatsFor c7_kills none none "Dybbis").kills_total =
      (c7_kills.filter (fun r => r.attacker_name == "Dybbis")).length ∧
    (playerStatsFor c7_kills none none "Dybbis").deaths_total =
      (c7_kills.filter (fun r => r.user_name == "Dybbis")).length ∧
    (playerStatsFor c7_kills none none "Dybbis").headshot_kills_total =
      (c7_kills.filter (fun r => r.attacker_name == "Dybbis" && r.headshot)).length :=
  missing_damage_table_degrades REQUIRED_PLAYERS c7_kills none "Dybbis"
    (playerStatsFor c7_kills none none "Dybbis") (by decide)

/-- Utility damage of one player is at most total damage when every
damage amount is non-negative, since its sum ranges over the
weapon-filtered subset of the same player's damage rows. -/
lemma playerStatsFor_utility_le (kills_df : List KillRow) (damage_df : List DamageRow)
    (round_end : Option (List RoundEndRow)) (p : String)
    (hpos : ∀ d ∈ damage_df, 0 ≤ d.dmg_health) :
    (playerStatsFor kills_df (some damage_df) round_end p).utility_dmg ≤
      (playerStatsFor kills_df (some damage_df) round_end p).dmg := by
  show ((((damage_df.filter (fun r => r.attacker_name == p)).filter
      (fun r => utility_weapons.contains r.weapon)).map (fun r => r.dmg_health)).sum : Int) ≤
    (((damage_df.filter (fun r => r.attacker_name == p)).map (fun r => r.dmg_health)).sum : Int)
  apply List.Sublist.sum_le_sum
  · exact List.Sublist.map _ (List.filter_sublist _)
  · intro a ha
    obtain ⟨d, hd, hda⟩ := List.mem_map.mp ha
    subst hda
    exact hpos d (List.mem_of_mem_filter hd)

/-- C10: when every damage amount is non-negative, utility damage is
at most total damage for every computed stats entry, because the
utility sum ranges over the weapon-filtered subset of the same
player's damage rows. -/
theorem utility_dmg_le_dmg (required : List String) (kills_df : List KillRow)
    (damage_df : List DamageRow) (round_end : Option (List RoundEndRow))
    (p : String) (s : PlayerStats)
    (hmem : (p, s) ∈ parse_player_stats required kills_df (some damage_df) round_end)
    (hpos : ∀ d ∈ damage_df, 0 ≤ d.dmg_health) :
    s.utility_dmg ≤ s.dmg := by
  obtain ⟨q, hq, heq⟩ := List.mem_map.mp hmem
  rw [Prod.mk.injEq] at heq
  obtain ⟨h1, h2⟩ := heq
  subst h1
  subst h2
  exact playerStatsFor_utility_le kills_df damage_df round_end _ hpos

/-- Damage table used by the C10 witness. -/
def c10_damage : List DamageRow := [⟨"Dybbis", "hegrenade", 40⟩, ⟨"Dybbis", "ak47", 60⟩]

/-- Witness for C10 at a concrete demo with non-negative damage. -/
theorem utility_dmg_le_dmg_witness :
    (playerStatsFor c7_kills (some c10_damage) none "Dybbis").utility_dmg ≤
      (playerStatsFor c7_kills (some c10_damage) none "Dybbis").dmg :=
  utility_dmg_le_dmg REQUIRED_PLAYERS c7_kills c10_damage none "Dybbis"
    (playerStatsFor c7_kills (some c10_damage) none "Dybbis") (by decide) (by decide)

/-- A per-round kill count is classified as an ace exactly when it is
at least 5. -/
lemma classifyTier_ace (c : Nat) : classifyTier c = .ace ↔ 5 ≤ c := by
  unfold classifyTier
  split_ifs with h1 h2 h3 <;> simp_all <;> omega

/-- A per-round kill count is classified as a quad exactly when it is
exactly 4. -/
lemma classifyTier_quad (c : Nat) : classifyTier c = .quad ↔ c = 4 := by
  unfold classifyTier
  split_ifs with h1 h2 h3 <;> simp_all <;> omega

/-- A per-round kill count is classified as a triple exactly when it
is exactly 3. -/
lemma classifyTier_triple (c : Nat) : classifyTier c = .triple ↔ c = 3 := by
  unfold classifyTier
  split_ifs with h1 h2 h3 <;> simp_all <;> omega

/-- A per-round kill count is classified as no tier exactly when it is
at most 2. -/
lemma classifyTier_noTier (c : Nat) : classifyTier c = .noTier ↔ c ≤ 2 := by
  unfold classifyTier
  split_ifs with h1 h2 h3 <;> simp_all <;> omega

/-- C3: for a non-empty round table, the ace/quad/triple counters of
the multi-kill detection are exactly the numbers of per-round kill
groups classified into each tier, and the classification assigns every
group to exactly one tier (ace iff count >= 5, quad iff count = 4,
triple iff count = 3, no tier iff count <= 2). -/
theorem multi_kill_tiers (rdf : List RoundEndRow) (kills_df : List KillRow) (player : String)
    (hne : rdf ≠ []) :
    multiKillCounts (some rdf) kills_df player =
      (((kills_per_round rdf kills_df player).filter
          (fun g => classifyTier g.2 == KillTier.ace)).length,
       ((kills_per_round rdf kills_df player).filter
          (fun g => classifyTier g.2 == KillTier.quad)).length,
       ((kills_per_round rdf kills_df player).filter
          (fun g => classifyTier g.2 == KillTier.triple)).length) ∧
    ∀ g ∈ kills_per_round rdf kills_df player,
      (classifyTier g.2 = .ace ↔ 5 ≤ g.2) ∧ (classifyTier g.2 = .quad ↔ g.2 = 4) ∧
      (classifyTier g.2 = .triple ↔ g.2 = 3) ∧ (classifyTier g.2 = .noTier ↔ g.2 ≤ 2) := by
  constructor
  · have hace : ∀ g : Option Int × Nat,
        (decide (5 ≤ g.2)) = (classifyTier g.2 == KillTier.ace) := by
      intro g
      by_cases h : 5 ≤ g.2
      · simp [h, (classifyTier_ace g.2).mpr h]
      · have hc : classifyTier g.2 ≠ .ace := fun hc => h ((classifyTier_ace g.2).mp hc)
        simp [h, hc]
    have hquad : ∀ g : Option Int × Nat,
        (g.2 == 4) = (classifyTier g.2 == KillTier.quad) := by
      intro g
      by_cases h : g.2 = 4
      · rw [h]; decide
      · have hc : classifyTier g.2 ≠ .quad := fun hc => h ((classifyTier_quad g.2).mp hc)
        simp [h, hc]
    have htriple : ∀ g : Option Int × Nat,
        (g.2 == 3) = (classifyTier g.2 == KillTier.triple) := by
      intro g
      by_cases h : g.2 = 3
      · rw [h]; decide
      · have hc : classifyTier g.2 ≠ .triple := fun hc => h ((classifyTier_triple g.2).mp hc)
        simp [h, hc]
    cases rdf with
    | nil => exact absurd rfl hne
    | cons x xs =>
      have hred : multiKillCounts (some (x :: xs)) kills_df player =
          (((kills_per_round (x :: xs) kills_df player).filter
              (fun g => decide (5 ≤ g.2))).length,
           ((kills_per_round (x :: xs) kills_df player).filter (fun g => g.2 == 4)).length,
           ((kills_per_round (x :: xs) kills_df player).filter
              (fun g => g.2 == 3)).length) := rfl
      rw [hred,
        show (fun g : Option Int × Nat => decide (5 ≤ g.2)) =
          (fun g : Option Int × Nat => classifyTier g.2 == KillTier.ace) from funext hace,
        show (fun g : Option Int × Nat => g.2 == 4) =
          (fun g : Option Int × Nat => classifyTier g.2 == KillTier.quad) from funext hquad,
        show (fun g : Option Int × Nat => g.2 == 3) =
          (fun g : Option Int × Nat => classifyTier g.2 == KillTier.triple) from funext htriple]
  · intro g _
    exact ⟨classifyTier_ace g.2, classifyTier_quad g.2,
      classifyTier_triple g.2, classifyTier_noTier g.2⟩

/-- Round table used by the C3 witness: two rounds ending at ticks 100
and 200. -/
def c3_rounds : List RoundEndRow := [⟨1, 100, "CT"⟩, ⟨2, 200, "T"⟩]

/-- Kill table used by the C3 witness: player `"p"` makes five kills
in round 1 and three kills in round 2. -/
def c3_kills : List KillRow :=
  [⟨"p", "a", false, 10⟩, ⟨"p", "b", false, 20⟩, ⟨"p", "c", false, 30⟩,
   ⟨"p", "d", false, 40⟩, ⟨"p", "e", false, 50⟩,
   ⟨"p", "a", false, 150⟩, ⟨"p", "b", false, 160⟩, ⟨"p", "c", false, 170⟩]

/-- Witness for C3 at a concrete demo: one ace round, no quad round,
one triple round, and the ace group satisfies the classification. -/
theorem multi_kill_tiers_witness :
    multiKillCounts (some c3_rounds) c3_kills "p" =
      (((kills_per_round c3_rounds c3_kills "p").filter
          (fun g => classifyTier g.2 == KillTier.ace)).length,
       ((kills_per_round c3_rounds c3_kills "p").filter
          (fun g => classifyTier g.2 == KillTier.quad)).length,
       ((kills_per_round c3_rounds c3_kills "p").filter
          (fun g => classifyTier g.2 == KillTier.triple)).length) ∧
    ((classifyTier (((some (1 : Int) : Option Int), (5 : Nat)) : Option Int × Nat).2 = .ace ↔
        5 ≤ (((some (1 : Int) : Option Int), (5 : Nat)) : Option Int × Nat).2) ∧
      (classifyTier (((some (1 : Int) : Option Int), (5 : Nat)) : Option Int × Nat).2 = .quad ↔
        (((some (1 : Int) : Option Int), (5 : Nat)) : Option Int × Nat).2 = 4) ∧
      (classifyTier (((some (1 : Int) : Option Int), (5 : Nat)) : Option Int × Nat).2 = .triple ↔
        (((some (1 : Int) : Option Int), (5 : Nat)) : Option Int × Nat).2 = 3) ∧
      (classifyTier (((some (1 : Int) : Option Int), (5 : Nat)) : Option Int × Nat).2 = .noTier ↔
        (((some (1 : Int) : Option Int), (5 : Nat)) : Option Int × Nat).2 ≤ 2)) :=
  ⟨(multi_kill_tiers c3_rounds c3_kills "p" (by decide)).1,
   (multi_kill_tiers c3_rounds c3_kills "p" (by decide)).2 (some 1, 5) (by decide)⟩

/-- C8: the roster check passes exactly when every required name is
present case-insensitively among the observed names; when it fails,
`parse_demo_file` skips the demo, reporting the missing names, and the
sink state is unchanged (nothing parsed or uploaded). -/
theorem roster_gate :
    (∀ (players required : List String),
      check_required_players players required = true ↔
        ∀ r ∈ required, ∃ p ∈ players, strLower p = strLower r) ∧
    (∀ (demo : Demo) (required : List String) (db : DB),
      check_required_players (get_player_names demo.kills_df) required = false →
      parse_demo_file demo required db =
        (.skippedMissingPlayers
          (missing_required (get_player_names demo.kills_df) required), db)) := by
  constructor
  · intro players required
    unfold check_required_players missing_required
    rw [List.isEmpty_iff, List.filter_eq_nil_iff]
    constructor
    · intro h r hr
      have hmem : strLower r ∈ lowerSet required := by
        unfold lowerSet
        rw [mem_uniqueFirst]
        exact List.mem_map_of_mem _ hr
      have hcont := h _ hmem
      simp only [Bool.not_eq_true', Bool.not_eq_false] at hcont
      have : strLower r ∈ lowerSet players := by
        have := List.elem_iff.mp hcont
        exact this
      unfold lowerSet at this
      rw [mem_uniqueFirst] at this
      obtain ⟨p, hp, hps⟩ := List.mem_map.mp this
      exact ⟨p, hp, hps⟩
    · intro h x hx
      unfold lowerSet at hx
      rw [mem_uniqueFirst] at hx
      obtain ⟨r, hr, hrs⟩ := List.mem_map.mp hx
      obtain ⟨p, hp, hps⟩ := h r hr
      have : x ∈ lowerSet players := by
        unfold lowerSet
        rw [mem_uniqueFirst]
        exact List.mem_map.mpr ⟨p, hp, by rw [hps, hrs]⟩
      simp only [Bool.not_eq_true', Bool.not_eq_false]
      exact List.elem_iff.mpr this
  · intro demo required db h
    unfold parse_demo_file
    simp only [h, Bool.false_eq_true, if_false]

/-- Demo used by the C8 witness: only two of the required players
appear, so the roster gate skips it. -/
def c8_demo : Demo :=
  ⟨"2024_05_01_20_30", "de_dust2", "2024-05-01 20:30:00",
   [⟨"nifty", "Dybbis", false, 0⟩], none, none, none⟩

/-- Witness for C8 at concrete inputs: a demo missing required players
is skipped with the missing names and an untouched sink, and a
case-variant complete roster passes the check. -/
theorem roster_gate_witness :
    parse_demo_file c8_demo REQUIRED_PLAYERS ⟨[], []⟩ =
      (.skippedMissingPlayers
        (missing_required (get_player_names c8_demo.kills_df) REQUIRED_PLAYERS), ⟨[], []⟩) ∧
    check_required_players ["NIFTY", "dybbis", "togmannen", "stutmunn", "MARTINSEN"]
      REQUIRED_PLAYERS = true :=
  ⟨roster_gate.2 c8_demo REQUIRED_PLAYERS ⟨[], []⟩ (by decide),
   (roster_gate.1 ["NIFTY", "dybbis", "togmannen", "stutmunn", "MARTINSEN"]
       REQUIRED_PLAYERS).mpr (by decide)⟩

/-- C4: when the final round exists and some tracked player has tick
samples in the lookback window before its end, `won` is 1 exactly when
the final round's winning side equals the side obtained as the
statistical mode of the first such tracked player's team samples in
the window (mapped through the code's CT/T normalisation). -/
theorem final_round_side_mode (rdf : List RoundEndRow) (hne : rdf ≠ [])
    (tdf : List TickRow) (required : List String) (i : Nat) (n : String)
    (hn : (uniqueFirst ((relevantTicks tdf (rdf.getLast hne).tick).map
        (fun r => r.name)))[i]? = some n)
    (htr : tracked_name required n = true)
    (hfirst : ∀ (j : Nat) (m : String), j < i →
      (uniqueFirst ((relevantTicks tdf (rdf.getLast hne).tick).map
        (fun r => r.name)))[j]? = some m →
      tracked_name required m = false) :
    compute_won rdf (some tdf) required =
      if (rdf.getLast hne).winner ==
          sideOfTeam (pandasMode
            (((relevantTicks tdf (rdf.getLast hne).tick).filter
              (fun r => r.name == n)).map (fun r => r.team_name)))
      then 1 else 0 := by
  have hmemn : n ∈ (relevantTicks tdf (rdf.getLast hne).tick).map (fun r => r.name) :=
    (mem_uniqueFirst n _).mp (List.getElem?_mem hn)
  obtain ⟨r, hr, hrn⟩ := List.mem_map.mp hmemn
  have hflt : r ∈ (relevantTicks tdf (rdf.getLast hne).tick).filter
      (fun x => x.name == n) :=
    List.mem_filter.mpr ⟨hr, by simp [hrn]⟩
  have hptne : ((relevantTicks tdf (rdf.getLast hne).tick).filter
      (fun x => x.name == n)).isEmpty = false :=
    isEmpty_false_of_ne_nil (List.ne_nil_of_mem hflt)
  have hfind : findOurTeam (relevantTicks tdf (rdf.getLast hne).tick) required =
      some (sideOfTeam (pandasMode
        (((relevantTicks tdf (rdf.getLast hne).tick).filter
          (fun r => r.name == n)).map (fun r => r.team_name)))) := by
    unfold findOurTeam
    refine findSome?_first _ _ i n _ hn ?_ ?_
    · simp only [htr, if_true, hptne, Bool.false_eq_true, if_false]
    · intro j c hj hc
      simp only [hfirst j c hj hc, Bool.false_eq_true, if_false]
  have hredux : compute_won rdf (some tdf) required =
      match findOurTeam (relevantTicks tdf (rdf.getLast hne).tick) required with
      | some team => if (rdf.getLast hne).winner == team then 1 else 0
      | none => 0 := by
    unfold compute_won
    rw [List.getLast?_eq_getLast_of_ne_nil hne]
  rw [hredux, hfind]

/-- Round table used by the C4 witness. -/
def c4_rounds : List RoundEndRow := [⟨1, 1000, "CT"⟩]

/-- Tick table used by the C4 witness: one sample of a tracked player
on CT inside the lookback window. -/
def c4_ticks : List TickRow := [⟨500, "nifty", "CT"⟩]

/-- Witness for C4 at a concrete demo: the tracked roster's modal side
in the final-round window is CT and CT wins the final round, so the
outcome is a win. -/
theorem final_round_side_mode_witness :
    compute_won c4_rounds (some c4_ticks) REQUIRED_PLAYERS = 1 := by
  have h := final_round_side_mode c4_rounds (by decide) c4_ticks REQUIRED_PLAYERS 0 "nifty"
    (by decide) (by decide) (fun j m hj _ => absurd hj (Nat.not_lt_zero j))
  rw [h]
  decide

end PuncentralStats
